import Mathlib

/-!
# Shallow embedding of the fingerprint-to-transaction ledger service

This file embeds the backend core of the `fingerprint-dapp` repository:

* `server/config/database.ts` — the SQLite-backed `DatabaseService`
  (`addTransactionToFingerprint`, `getFingerprintByHash`,
  `getFingerprintById`, `getAllFingerprints`);
* `server/utils/helpers.ts` — `transformFingerprintLog`,
  `calculatePagination`, `sanitizeSortField`, `sanitizeSortOrder`;
* `server/middleware/validation.ts` — `validateCreateTransaction`,
  `validateGetFingerprintsQuery`;
* `server/middleware/auth.ts` — `validateApiKey`;
* `server/routes/fingerprints.ts` — the `POST /log` and
  `GET /fingerprints` handlers (the variant with unauthenticated
  redaction of list entries).

Modelling conventions:

* JavaScript strings are Lean `String`s; `slice` is modelled on the
  underlying character list.
* Parsed JSON transaction objects are association lists
  `List (String × String)` (all three stored fields are strings);
  a JavaScript property access `tx.k` is `jsGet tx k : Option String`,
  with `none` standing for `undefined`.  A strict comparison
  `tx.k === s` between a possibly-undefined property and a string is
  `jsGet tx k = some s` (in JavaScript `undefined === s` is `false`
  for every string `s`).
* The `transactions` TEXT column is a `TransactionsBlob`: `TEXT NULL`
  (or the empty string, both JS-falsy) is `.null`, text that
  `JSON.parse` rejects is `.corrupt`, and text produced by
  `JSON.stringify` of an array of transaction objects is `.json l`
  (round-tripping through `JSON.parse` yields `l` again).
* SQLite `DATETIME DEFAULT CURRENT_TIMESTAMP` values are modelled as
  `Nat` instants (the stored `'YYYY-MM-DD HH:MM:SS'` strings compare
  lexicographically exactly as the instants compare numerically);
  each database call receives the current instant `now` explicitly.
* `async`/`await` calls are embedded as pure state-passing functions
  `DBState → …`; a thrown `DatabaseError` is the `.error` branch of
  an `Except String` result, carrying the error message.
-/

/-! ## JavaScript string primitives -/

/-- JavaScript `s.slice(0, n)`: the first `n` characters of `s`
(all of `s` when `s.length ≤ n`). -/
def jsSliceTo (s : String) (n : Nat) : String :=
  ⟨s.data.take n⟩

/-- JavaScript `s.slice(-n)`: the last `n` characters of `s`
(all of `s` when `s.length ≤ n`). -/
def jsSliceFromEnd (s : String) (n : Nat) : String :=
  ⟨s.data.drop (s.data.length - n)⟩

/-- JavaScript `s.toUpperCase()`, character by character (ASCII case
mapping; the two functions agree on the ASCII inputs the claims are
about). -/
def jsToUpperCase (s : String) : String :=
  ⟨s.data.map Char.toUpper⟩

/-- Hex digits: `'0'-'9'`, `'a'-'f'` or `'A'-'F'`. -/
def isHexDigit (c : Char) : Bool :=
  (('0' ≤ c && c ≤ '9') || ('a' ≤ c && c ≤ 'f') || ('A' ≤ c && c ≤ 'F'))

/-- The regex `/^0x[a-fA-F0-9]{40}$/` of `validateCreateTransaction`. -/
def isEthAddress (s : String) : Bool :=
  s.data.length = 42 && s.data.take 2 = ['0', 'x'] && (s.data.drop 2).all isHexDigit

/-- The regex `/^0x[a-fA-F0-9]{64}$/` of `validateCreateTransaction`. -/
def isEthTxHash (s : String) : Bool :=
  s.data.length = 66 && s.data.take 2 = ['0', 'x'] && (s.data.drop 2).all isHexDigit

/-- The regex `/^[a-fA-F0-9]{64}$/` of `validateCreateTransaction`. -/
def isSha256Hex (s : String) : Bool :=
  s.data.length = 64 && s.data.all isHexDigit

/-! ## Parsed JSON transaction objects -/

/-- A parsed JSON transaction object: an association list from property
names to string values (the three fields written by the service are all
strings). -/
abbrev JsObj := List (String × String)

/-- JavaScript property access `o.k` on a parsed JSON object:
`none` is `undefined`. -/
def jsGet (o : JsObj) (k : String) : Option String :=
  (o.find? (fun p => p.1 == k)).map (·.2)

/-- A JSON object whose values may be `null` (produced by the redaction
spread `{...tx, txHash: …, walletAddress: …}`, whose branches can write
`null`). -/
abbrev JsObjN := List (String × Option String)

/-- Property access on a nullable-valued object. -/
def jsGetN (o : JsObjN) (k : String) : Option (Option String) :=
  (o.find? (fun p => p.1 == k)).map (·.2)

/-- The JavaScript object spread `{...o, k: v}`: the value at `k` is
replaced when present (keeping its position) and appended otherwise. -/
def jsSetKey (o : JsObjN) (k : String) (v : Option String) : JsObjN :=
  if o.any (fun p => p.1 == k) then
    o.map (fun p => if p.1 == k then (p.1, v) else p)
  else
    o ++ [(k, v)]

/-! ## The fingerprint_logs table and DatabaseService -/

/-- The `transactions` TEXT column of a `fingerprint_logs` row. -/
inductive TransactionsBlob where
  /-- column `NULL` (or the empty string): JS-falsy, skipped by
  `if (existingRecord.transactions)` / `if (row.transactions)`. -/
  | null
  /-- text rejected by `JSON.parse`. -/
  | corrupt
  /-- Text produced by `JSON.stringify` of an array of transaction objects; `JSON.parse`
  recovers exactly the array. -/
  | json (txs : List JsObj)
deriving DecidableEq, Repr

/-- One row of `fingerprint_logs` (see `createTables`). -/
structure DBRecord where
  id : Nat
  fingerprint_id : String
  fingerprint_hash : String
  transactions : TransactionsBlob
  created_at : Nat
  updated_at : Nat
deriving DecidableEq, Repr

/-- The database: the rows of `fingerprint_logs` plus the next
`AUTOINCREMENT` id. -/
structure DBState where
  records : List DBRecord
  nextId : Nat
deriving DecidableEq, Repr

/-- Embeds `SELECT … WHERE fingerprint_id = ? AND fingerprint_hash = ?`
(first matching row). -/
def findByIdAndHash (s : DBState) (fingerprintId fingerprintHash : String) :
    Option DBRecord :=
  s.records.find? (fun r =>
    r.fingerprint_id == fingerprintId && r.fingerprint_hash == fingerprintHash)

/-- Input of `DatabaseService.addTransactionToFingerprint`. -/
structure TxData where
  fingerprintId : String
  walletAddress : String
  transactionHash : String
  fingerprintHash : String
  timestamp : String
deriving DecidableEq, Repr

/-- The object literal `newTransaction` of
`addTransactionToFingerprint` (database.ts lines 119–124): note the
transaction hash is stored under the property name `txHash`. -/
def newTransaction (d : TxData) : JsObj :=
  [("txHash", d.transactionHash),
   ("walletAddress", d.walletAddress),
   ("timestamp", d.timestamp)]

/-- The parse step of `addTransactionToFingerprint` (lines 128–135):
`let transactions = []; if (existingRecord.transactions) { try {
transactions = JSON.parse(…) } catch (e) { throw Error('There was an
error parsing the existing record') } }`. -/
def parseStoredTransactions : TransactionsBlob → Except String (List JsObj)
  | .null => .ok []
  | .corrupt => .error "There was an error parsing the existing record"
  | .json txs => .ok txs

/-- Embeds `DatabaseService.addTransactionToFingerprint` (database.ts lines
100–173).  Returns the row id on success; a thrown `DatabaseError` is
an `.error` carrying the message, wrapped by the outer `catch` into
`"Failed to add transaction: …"`.  The dedup check is the source's
`transactions.some((tx: any) => tx.hash === transactionHash)` — it
reads the property `hash`, while `newTransaction` stores the hash under
`txHash`.  A clashing `INSERT` on the `UNIQUE` column `fingerprint_id`
surfaces as the SQLite constraint error. -/
def addTransactionToFingerprint (s : DBState) (now : Nat) (d : TxData) :
    Except String (Nat × DBState) :=
  match findByIdAndHash s d.fingerprintId d.fingerprintHash with
  | some existingRecord =>
    match parseStoredTransactions existingRecord.transactions with
    | .error e => .error ("Failed to add transaction: " ++ e)
    | .ok transactions =>
      -- `const transactionExists = transactions.some((tx: any) => tx.hash === transactionHash);`
      let transactionExists :=
        transactions.any (fun tx => jsGet tx "hash" == some d.transactionHash)
      if transactionExists then
        .error "Failed to add transaction: Transaction already exists for this fingerprint"
      else
        let txs := transactions ++ [newTransaction d]
        -- `UPDATE fingerprint_logs SET transactions = ?, updated_at = CURRENT_TIMESTAMP WHERE id = ?`
        let records := s.records.map (fun r =>
          if r.id == existingRecord.id then
            { r with transactions := .json txs, updated_at := now }
          else r)
        .ok (existingRecord.id, { s with records := records })
  | none =>
    -- `INSERT INTO fingerprint_logs (fingerprint_id, fingerprint_hash, transactions) VALUES (?, ?, ?)`
    if s.records.any (fun r => r.fingerprint_id == d.fingerprintId) then
      .error "Failed to add transaction: UNIQUE constraint failed: fingerprint_logs.fingerprint_id"
    else
      .ok (s.nextId,
        { records := s.records ++
            [{ id := s.nextId,
               fingerprint_id := d.fingerprintId,
               fingerprint_hash := d.fingerprintHash,
               transactions := .json [newTransaction d],
               created_at := now,
               updated_at := now }],
          nextId := s.nextId + 1 })

/-- Embeds `DatabaseService.getFingerprintByHash`:
`SELECT * FROM fingerprint_logs WHERE fingerprint_hash = ?`. -/
def getFingerprintByHash (s : DBState) (fingerprintHash : String) :
    Option DBRecord :=
  s.records.find? (fun r => r.fingerprint_hash == fingerprintHash)

/-- Embeds `DatabaseService.getFingerprintById`:
`SELECT * FROM fingerprint_logs WHERE fingerprint_id = ?`. -/
def getFingerprintById (s : DBState) (fingerprintId : String) :
    Option DBRecord :=
  s.records.find? (fun r => r.fingerprint_id == fingerprintId)

/-! ## server/utils/helpers.ts -/

/-- API response shape produced by `transformFingerprintLog`. -/
structure FingerprintLogResponse where
  id : Nat
  fingerprintId : String
  fingerprintHash : String
  transactions : List JsObj
  createdAt : Nat
  updatedAt : Nat
deriving DecidableEq, Repr

/-- Embeds `transformFingerprintLog` (helpers.ts lines 7–27): `let transactions
= []; if (row.transactions) { try { transactions = JSON.parse(…) }
catch (e) { … transactions = [] } }`. -/
def transformFingerprintLog (row : DBRecord) : FingerprintLogResponse :=
  { id := row.id,
    fingerprintId := row.fingerprint_id,
    fingerprintHash := row.fingerprint_hash,
    transactions :=
      match row.transactions with
      | .null => []
      | .corrupt => []
      | .json txs => txs,
    createdAt := row.created_at,
    updatedAt := row.updated_at }

/-- Embeds `Math.ceil(total / limit)` on JavaScript numbers, as exact
rational division followed by the ceiling. -/
def jsMathCeilDiv (total limit : Nat) : Nat :=
  (⌈(total : ℚ) / (limit : ℚ)⌉).toNat

/-- Result of `calculatePagination`. -/
structure PaginationInfo where
  page : Nat
  limit : Nat
  total : Nat
  totalPages : Nat
  hasMore : Bool
deriving DecidableEq, Repr

/-- Embeds `calculatePagination` (helpers.ts lines 75–86). -/
def calculatePagination (page limit total : Nat) : PaginationInfo :=
  let totalPages := jsMathCeilDiv total limit
  { page := page, limit := limit, total := total,
    totalPages := totalPages,
    hasMore := decide (page < totalPages) }

/-- Embeds `sanitizeSortField` (helpers.ts lines 91–93):
`validFields.includes(sortBy) ? sortBy : validFields[0]`. -/
def sanitizeSortField (sortBy : String) (validFields : List String) : String :=
  if validFields.contains sortBy then sortBy else validFields.headD ""

/-- Embeds `sanitizeSortOrder` (helpers.ts lines 98–101). -/
def sanitizeSortOrder (sortOrder : String) : String :=
  let normalized := jsToUpperCase sortOrder
  if normalized == "ASC" || normalized == "DESC" then normalized else "DESC"

/-! ## DatabaseService.getAllFingerprints -/

/-- The allow-list inside `getAllFingerprints` (database.ts line 232). -/
def dbValidSortFields : List String :=
  ["created_at", "updated_at", "fingerprint_id", "fingerprint_hash"]

/-- The sanitization inside `getAllFingerprints` (database.ts lines
232–236): `finalSortBy` and `finalSortOrder`. -/
def dbFinalSort (sortBy sortOrder : String) : String × String :=
  (if dbValidSortFields.contains sortBy then sortBy else "created_at",
   if ["ASC", "DESC"].contains (jsToUpperCase sortOrder) then jsToUpperCase sortOrder
   else "DESC")

/-- Embeds the `ORDER BY` comparison on the resolved sort column (ascending).
`DATETIME` text compares as the underlying instants; TEXT columns
compare lexicographically. -/
def recordFieldLe (field : String) (a b : DBRecord) : Bool :=
  match field with
  | "updated_at" => decide (a.updated_at ≤ b.updated_at)
  | "fingerprint_id" => decide (a.fingerprint_id ≤ b.fingerprint_id)
  | "fingerprint_hash" => decide (a.fingerprint_hash ≤ b.fingerprint_hash)
  | _ => decide (a.created_at ≤ b.created_at)

/-- Embeds `DatabaseService.getAllFingerprints` (database.ts lines 218–253):
total count, sanitized sort, then
`SELECT * … ORDER BY … LIMIT ? OFFSET ?`. -/
def getAllFingerprints (s : DBState) (limit offset : Nat)
    (sortBy sortOrder : String) : List DBRecord × Nat :=
  let total := s.records.length
  let (finalSortBy, finalSortOrder) := dbFinalSort sortBy sortOrder
  let le := fun a b =>
    if finalSortOrder == "ASC" then recordFieldLe finalSortBy a b
    else recordFieldLe finalSortBy b a
  let logs := ((s.records.mergeSort le).drop offset).take limit
  (logs, total)

/-! ## server/middleware/validation.ts -/

/-- The runtime value of the `timestamp` field of a request body
(`timestamp?: string | number`): absent, a string, or a number. -/
inductive TsValue where
  | missing
  | str (s : String)
  | num (n : Int)
deriving DecidableEq, Repr

/-- A `POST /log` request body.  A string field is `none` when absent
or not a string (both fail the same `typeof` check in the source). -/
structure CreateTxBody where
  fingerprintId : Option String
  walletAddress : Option String
  transactionHash : Option String
  hashedFingerprint : Option String
  timestamp : TsValue
deriving DecidableEq, Repr

/-- Embeds `validateCreateTransaction` (validation.ts lines 7–106).
`dateParse` embeds `Date.parse` (`none` for `NaN`); `now` embeds
`Date.now()`.  Returns `some message` when the middleware answers 400
with that message, `none` when it calls `next()`. -/
def validateCreateTransaction (dateParse : String → Option Int) (now : Int)
    (b : CreateTxBody) : Option String :=
  match b.fingerprintId with
  | none => some "fingerprintId is required and must be a string"
  | some fingerprintId =>
    if fingerprintId == "" then
      some "fingerprintId is required and must be a string"
    else if fingerprintId.length < 10 || fingerprintId.length > 100 then
      some "fingerprintId must be between 10 and 100 characters"
    else match b.walletAddress with
    | none => some "walletAddress is required and must be a string"
    | some walletAddress =>
      if walletAddress == "" then
        some "walletAddress is required and must be a string"
      else if !(isEthAddress walletAddress) then
        some "walletAddress must be a valid Ethereum address"
      else match b.transactionHash with
      | none => some "transactionHash is required and must be a string"
      | some transactionHash =>
        if transactionHash == "" then
          some "transactionHash is required and must be a string"
        else if !(isEthTxHash transactionHash) then
          some "transactionHash must be a valid Ethereum transaction hash"
        else match b.hashedFingerprint with
        | none => some "hashedFingerprint is required and must be a string"
        | some hashedFingerprint =>
          if hashedFingerprint == "" then
            some "hashedFingerprint is required and must be a string"
          else if !(isSha256Hex hashedFingerprint) then
            some "hashedFingerprint must be a valid SHA-256 hash (64 hex characters)"
          else match b.timestamp with
          | .str s =>
            if (dateParse s).isNone then
              some "timestamp must be a valid ISO date string"
            else none
          | .num n =>
            if n < 0 || n > now + 86400000 then
              some "timestamp must be a valid Unix timestamp"
            else none
          | .missing =>
            some "timestamp must be a string (ISO date) or number (Unix timestamp)"

/-- JS truthiness test of a `timestamp` value, as used by the `POST
/log` handler expression `requestData.timestamp || formatTimestamp()`:
absent, the empty string and the number `0` are falsy. -/
def tsFalsy : TsValue → Bool
  | .missing => true
  | .str s => s == ""
  | .num n => n == 0

/-- The handler line `const timestamp = requestData.timestamp ||
formatTimestamp();` (fingerprints.ts line 40): the server-assigned
current ISO time `nowIso` is used exactly when the supplied value is
JS-falsy. -/
def resolveTimestamp (t : TsValue) (nowIso : String) : TsValue :=
  if tsFalsy t then .str nowIso else t

/-- Embeds `validateGetFingerprintsQuery` (validation.ts lines 158–183);
`page` and `limit` are modelled as already-numeric (`Number(…)` of a
non-numeric query string fails validation and is outside the model). -/
def validateGetFingerprintsQuery (page limit : Option Nat) : Option String :=
  match page with
  | some p =>
    if p < 1 then some "page must be a positive number"
    else match limit with
      | some l =>
        if l < 1 || l > 100 then some "limit must be between 1 and 100" else none
      | none => none
  | none =>
    match limit with
    | some l =>
      if l < 1 || l > 100 then some "limit must be between 1 and 100" else none
    | none => none

/-! ## server/middleware/auth.ts -/

/-- JS truthiness of a possibly-absent string (`undefined` and `''`
are falsy). -/
def jsFalsyOptStr : Option String → Bool
  | none => true
  | some s => s == ""

/-- Outcome of an Express middleware: either a response is sent with a
status code and the chain stops, or the request proceeds carrying the
`isAuthenticated` flag set by the middleware. -/
inductive AuthResult where
  | reject (status : Nat)
  | proceed (isAuthenticated : Bool)
deriving DecidableEq, Repr

/-- Embeds `validateApiKey` (auth.ts lines 12–79).  `apiKey` is the value of
`req.headers['x-api-key'] || req.headers['authorization']?.replace('Bearer ', '')`
(`none` for `undefined`); `expectedApiKey` is
`process.env.API_SECRET_KEY`.  On success the middleware sets
`req.isAuthenticated = true` and calls `next()`. -/
def validateApiKey (apiKey expectedApiKey : Option String) : AuthResult :=
  if jsFalsyOptStr expectedApiKey then .reject 500
  else if jsFalsyOptStr apiKey then .reject 401
  else if apiKey ≠ expectedApiKey then .reject 401
  else .proceed true

/-! ## The GET /fingerprints handler and its redaction -/

/-- The transaction-entry masking of the unauthenticated branch of the
`GET /fingerprints` handler (fingerprints.ts lines 348–354):
`{...tx, txHash: tx.txHash ? tx.txHash.slice(0, 10) + '...' +
tx.txHash.slice(-8) : null, walletAddress: tx.walletAddress ?
tx.walletAddress.slice(0, 6) + '...' + tx.walletAddress.slice(-4) :
null}`. -/
def maskTx (tx : JsObj) : JsObjN :=
  let base : JsObjN := tx.map (fun p => (p.1, some p.2))
  let txHashMasked : Option String :=
    match jsGet tx "txHash" with
    | some h =>
      if h ≠ "" then some (jsSliceTo h 10 ++ "..." ++ jsSliceFromEnd h 8)
      else none
    | none => none
  let walletMasked : Option String :=
    match jsGet tx "walletAddress" with
    | some w =>
      if w ≠ "" then some (jsSliceTo w 6 ++ "..." ++ jsSliceFromEnd w 4)
      else none
    | none => none
  jsSetKey (jsSetKey base "txHash" txHashMasked) "walletAddress" walletMasked

/-- One element of the `data` array of the `GET /fingerprints`
response: the transformed record as-is for authenticated callers, or
the redacted object literal of fingerprints.ts lines 341–355. -/
inductive ShapedEntry where
  | full (r : FingerprintLogResponse)
  | redacted (id : Nat) (fingerprintId : String) (fingerprintHash : String)
      (walletAddress : String) (transactions : List JsObjN)
      (createdAt updatedAt : Nat)
deriving DecidableEq, Repr

/-- The per-record shaping inside `logs.map` of the `GET /fingerprints`
handler (fingerprints.ts lines 336–359). -/
def shapeListEntry (isAuthenticated : Bool) (t : FingerprintLogResponse) :
    ShapedEntry :=
  if isAuthenticated then .full t
  else
    .redacted t.id
      (jsSliceTo t.fingerprintId 8 ++ "...")
      t.fingerprintHash
      (jsSliceTo t.fingerprintHash 6 ++ "..." ++ jsSliceFromEnd t.fingerprintHash 4)
      (t.transactions.map maskTx)
      t.createdAt t.updatedAt

/-- The JSON body sent by the `GET /fingerprints` handler. -/
structure ListResponse where
  success : Bool
  data : List ShapedEntry
  pagination : PaginationInfo
  authenticated : Bool
deriving DecidableEq, Repr

/-- The route-level allow-list of the `GET /fingerprints` handler
(fingerprints.ts line 325) — note it lists `wallet_address`, not
`fingerprint_hash`. -/
def routeValidSortFields : List String :=
  ["created_at", "updated_at", "fingerprint_id", "wallet_address"]

/-- The `GET /fingerprints` handler body (fingerprints.ts lines
316–368), after the middleware chain.  `isAuthenticated` is
`req.isAuthenticated || false`; absent query fields fall back through
`||` to their defaults. -/
def getFingerprintsHandler (isAuthenticated : Option Bool)
    (page? limit? : Option Nat) (sortBy? sortOrder? : Option String)
    (s : DBState) : ListResponse :=
  let isAuth := isAuthenticated.getD false
  let page := page?.getD 1
  let limit := limit?.getD 50
  let offset := (page - 1) * limit
  let sortBy := sanitizeSortField (sortBy?.getD "created_at") routeValidSortFields
  let sortOrder := sanitizeSortOrder (sortOrder?.getD "DESC")
  let (logs, total) := getAllFingerprints s limit offset sortBy sortOrder
  { success := true,
    data := logs.map (fun log => shapeListEntry isAuth (transformFingerprintLog log)),
    pagination := calculatePagination page limit total,
    authenticated := isAuth }

/-- Outcome of the full `GET /fingerprints` route. -/
inductive RouteResult where
  | rejected (status : Nat)
  | served (resp : ListResponse)
deriving DecidableEq, Repr

/-- The `GET /fingerprints` route: `validateApiKey`, then
`validateGetFingerprintsQuery`, then the handler. -/
def getFingerprintsRoute (apiKey expectedApiKey : Option String)
    (page? limit? : Option Nat) (sortBy? sortOrder? : Option String)
    (s : DBState) : RouteResult :=
  match validateApiKey apiKey expectedApiKey with
  | .reject status => .rejected status
  | .proceed isAuthenticated =>
    match validateGetFingerprintsQuery page? limit? with
    | some _ => .rejected 400
    | none =>
      .served (getFingerprintsHandler (some isAuthenticated)
        page? limit? sortBy? sortOrder? s)

/-- The sort field actually applied by a `GET /fingerprints` request:
the route-level `sanitizeSortField` against `routeValidSortFields`
composed with the `finalSortBy` fallback inside `getAllFingerprints`. -/
def appliedSortField (requested : String) : String :=
  (dbFinalSort (sanitizeSortField requested routeValidSortFields)
    (sanitizeSortOrder "DESC")).1

/-- The sort direction actually applied by a `GET /fingerprints`
request: the route-level `sanitizeSortOrder` composed with the
`finalSortOrder` fallback inside `getAllFingerprints`. -/
def appliedSortOrder (requested : String) : String :=
  (dbFinalSort (sanitizeSortField "created_at" routeValidSortFields)
    (sanitizeSortOrder requested)).2

/-- Data of a `GET /fingerprints/by-fingerprint-hash/:hash` response
(fingerprints.ts lines 389–426): the found row shaped by
`transformFingerprintLog`; `none` is the NotFound signal. -/
def getByHashRouteData (s : DBState) (hash : String) :
    Option FingerprintLogResponse :=
  (getFingerprintByHash s hash).map transformFingerprintLog

/-- Data of a `GET /fingerprints/by-id/:fingerprintId` response
(fingerprints.ts lines 431–468). -/
def getByIdRouteData (s : DBState) (fid : String) :
    Option FingerprintLogResponse :=
  (getFingerprintById s fid).map transformFingerprintLog

/-! ## Derived state descriptions and invariants -/

/-- The per-row effect of the `UPDATE` branch of
`addTransactionToFingerprint`: the matched row gets the appended list
and a refreshed `updated_at`; every other row is untouched. -/
def updateExisting (now : Nat) (d : TxData) (recId : Nat) (txs : List JsObj)
    (r : DBRecord) : DBRecord :=
  if r.id == recId then
    { r with transactions := .json (txs ++ [newTransaction d]), updated_at := now }
  else r

/-- The row created by the `INSERT` branch of
`addTransactionToFingerprint`. -/
def insertedRecord (s : DBState) (now : Nat) (d : TxData) : DBRecord :=
  { id := s.nextId, fingerprint_id := d.fingerprintId,
    fingerprint_hash := d.fingerprintHash,
    transactions := .json [newTransaction d],
    created_at := now, updated_at := now }

/-- State after the `UPDATE` branch. -/
def updatedState (s : DBState) (now : Nat) (d : TxData) (recId : Nat)
    (txs : List JsObj) : DBState :=
  { s with records := s.records.map (updateExisting now d recId txs) }

/-- State after the `INSERT` branch. -/
def insertedState (s : DBState) (now : Nat) (d : TxData) : DBState :=
  { records := s.records ++ [insertedRecord s now d], nextId := s.nextId + 1 }

/-- The data-model invariant `createdAt <= updatedAt` for every row. -/
def ledgerInvariant (s : DBState) : Prop :=
  ∀ r ∈ s.records, r.created_at ≤ r.updated_at

/-- Monotone clock: every stored timestamp is at or before the current
instant (`CURRENT_TIMESTAMP` never runs backwards). -/
def clockBound (s : DBState) (now : Nat) : Prop :=
  ∀ r ∈ s.records, r.created_at ≤ now ∧ r.updated_at ≤ now

/-- Number of stored entries carrying a given `txHash` in the record
for a `(fingerprintId, fingerprintHash)` pair. -/
def entriesWithTxHash (s : DBState) (fid fh txh : String) : Option Nat :=
  (findByIdAndHash s fid fh).map (fun r =>
    match r.transactions with
    | .json l => (l.filter (fun tx => jsGet tx "txHash" == some txh)).length
    | _ => 0)

/-- Number of stored transaction entries for a pair. -/
def storedTxCount (s : DBState) (fid fh : String) : Option Nat :=
  (findByIdAndHash s fid fh).map (fun r =>
    match r.transactions with
    | .json l => l.length
    | _ => 0)

/-! ## Concrete example data -/

deriving instance DecidableEq for Except

/-- A valid `POST /log` payload. -/
def exTx : TxData :=
  { fingerprintId := "visitor-abc-123"
    walletAddress := "0x1111111111111111111111111111111111111111"
    transactionHash := "0x2222222222222222222222222222222222222222222222222222222222222222"
    fingerprintHash := "aaaaaaaaaaaaaaaaaaaaaaaaaaaaaaaaaaaaaaaaaaaaaaaaaaaaaaaaaaaaaaaa"
    timestamp := "2025-01-01T00:00:00.000Z" }

/-- The empty database. -/
def exS0 : DBState := { records := [], nextId := 1 }

/-- The database after recording `exTx` at instant 100. -/
def exS1 : DBState :=
  { records := [{ id := 1, fingerprint_id := exTx.fingerprintId,
                  fingerprint_hash := exTx.fingerprintHash,
                  transactions := .json [newTransaction exTx],
                  created_at := 100, updated_at := 100 }],
    nextId := 2 }

/-- The database after recording `exTx` twice (instants 100 and 200). -/
def exS2 : DBState :=
  { records := [{ id := 1, fingerprint_id := exTx.fingerprintId,
                  fingerprint_hash := exTx.fingerprintHash,
                  transactions := .json [newTransaction exTx, newTransaction exTx],
                  created_at := 100, updated_at := 200 }],
    nextId := 2 }

/-- An earlier transaction for the same fingerprint, with a different hash. -/
def exTxOld : TxData :=
  { exTx with
    transactionHash := "0x3333333333333333333333333333333333333333333333333333333333333333"
    timestamp := "2024-12-31T00:00:00.000Z" }

/-- A fingerprint record holding one old transaction. -/
def exS5a : DBState :=
  { records := [{ id := 1, fingerprint_id := exTx.fingerprintId,
                  fingerprint_hash := exTx.fingerprintHash,
                  transactions := .json [newTransaction exTxOld],
                  created_at := 50, updated_at := 50 }],
    nextId := 2 }

def exS5b : DBState :=
  { records := [{ id := 1, fingerprint_id := exTx.fingerprintId,
                  fingerprint_hash := exTx.fingerprintHash,
                  transactions := .json [newTransaction exTxOld, newTransaction exTx],
                  created_at := 50, updated_at := 210 }],
    nextId := 2 }

def exS5c : DBState :=
  { records := [{ id := 1, fingerprint_id := exTx.fingerprintId,
                  fingerprint_hash := exTx.fingerprintHash,
                  transactions := .json [newTransaction exTxOld, newTransaction exTx,
                    newTransaction exTx],
                  created_at := 50, updated_at := 220 }],
    nextId := 2 }

/-- A payload aimed at the corrupt-blob record. -/
def exTxC : TxData :=
  { exTx with
    fingerprintId := "visitor-corrupt-99"
    fingerprintHash := "bbbbbbbbbbbbbbbbbbbbbbbbbbbbbbbbbbbbbbbbbbbbbbbbbbbbbbbbbbbbbbbb" }

/-- A stored record whose `transactions` text is not valid JSON. -/
def exCorruptRec : DBRecord :=
  { id := 7, fingerprint_id := exTxC.fingerprintId,
    fingerprint_hash := exTxC.fingerprintHash,
    transactions := .corrupt, created_at := 10, updated_at := 20 }

def exCorruptState : DBState := { records := [exCorruptRec], nextId := 8 }

/-- A request body with every field valid and `timestamp` omitted. -/
def exBodyMissingTs : CreateTxBody :=
  { fingerprintId := some exTx.fingerprintId
    walletAddress := some exTx.walletAddress
    transactionHash := some exTx.transactionHash
    hashedFingerprint := some exTx.fingerprintHash
    timestamp := .missing }

/-- A concrete transformed record for the C4 witness. -/
def exResp : FingerprintLogResponse :=
  { id := 1, fingerprintId := exTx.fingerprintId,
    fingerprintHash := exTx.fingerprintHash,
    transactions := [newTransaction exTx],
    createdAt := 100, updatedAt := 100 }

/-! ## String and association-list lemmas -/

@[simp] theorem length_jsSliceTo (s : String) (n : Nat) :
    (jsSliceTo s n).length = min n s.length := by
  show (s.data.take n).length = min n s.data.length
  exact List.length_take n s.data

@[simp] theorem length_jsSliceFromEnd (s : String) (n : Nat) :
    (jsSliceFromEnd s n).length = min n s.length := by
  show (s.data.drop (s.data.length - n)).length = min n s.data.length
  rw [List.length_drop]
  omega

theorem length_string_append (a b : String) :
    (a ++ b).length = a.length + b.length := by
  cases a with
  | mk da =>
    cases b with
    | mk db =>
      show (da ++ db).length = da.length + db.length
      exact List.length_append da db

theorem find?_map_override (l : JsObjN) (k : String) (v : Option String) :
    (l.map (fun p => if p.1 == k then (p.1, v) else p)).find? (fun p => p.1 == k)
      = (l.find? (fun p => p.1 == k)).map (fun p => (p.1, v)) := by
  induction l with
  | nil => rfl
  | cons a as ih =>
    rw [List.map_cons, List.find?_cons, List.find?_cons]
    by_cases ha : (a.1 == k) = true
    · rw [if_pos ha]
      simp only [ha]
      rfl
    · rw [Bool.not_eq_true] at ha
      simp only [ha, Bool.false_eq_true, if_false]
      exact ih

theorem find?_map_override_ne (l : JsObjN) (k k' : String) (v : Option String)
    (hkk : (k' == k) = false) :
    (l.map (fun p => if p.1 == k then (p.1, v) else p)).find? (fun p => p.1 == k')
      = l.find? (fun p => p.1 == k') := by
  have hne : k' ≠ k := by simpa using hkk
  induction l with
  | nil => rfl
  | cons a as ih =>
    rw [List.map_cons, List.find?_cons, List.find?_cons]
    by_cases hak : (a.1 == k) = true
    · have h1 : a.1 = k := by simpa using hak
      have ha' : (a.1 == k') = false := by
        rw [beq_eq_false_iff_ne, h1]
        exact fun h => hne h.symm
      rw [if_pos hak]
      simp only [ha', Bool.false_eq_true]
      exact ih
    · rw [Bool.not_eq_true] at hak
      simp only [hak, Bool.false_eq_true, if_false]
      by_cases ha' : (a.1 == k') = true
      · simp only [ha']
      · rw [Bool.not_eq_true] at ha'
        simp only [ha', Bool.false_eq_true]
        exact ih

theorem jsGetN_jsSetKey_self (o : JsObjN) (k : String) (v : Option String) :
    jsGetN (jsSetKey o k v) k = some v := by
  unfold jsSetKey jsGetN
  by_cases hany : (o.any fun p => p.1 == k) = true
  · rw [if_pos hany, find?_map_override]
    rcases List.any_eq_true.mp hany with ⟨x, hx, hpx⟩
    cases hfo : o.find? (fun p => p.1 == k) with
    | none => exact absurd hpx ((List.find?_eq_none.mp hfo) x hx)
    | some p => simp
  · rw [if_neg hany, List.find?_append]
    rw [Bool.not_eq_true] at hany
    have hnone : o.find? (fun p => p.1 == k) = none :=
      List.find?_eq_none.mpr (List.any_eq_false.mp hany)
    rw [hnone]
    simp

theorem jsGetN_jsSetKey_other (o : JsObjN) (k k' : String) (v : Option String)
    (hkk : (k' == k) = false) :
    jsGetN (jsSetKey o k v) k' = jsGetN o k' := by
  unfold jsSetKey jsGetN
  by_cases hany : (o.any fun p => p.1 == k) = true
  · rw [if_pos hany, find?_map_override_ne o k k' v hkk]
  · rw [if_neg hany, List.find?_append]
    have hne : k' ≠ k := by simpa using hkk
    have hk : (k == k') = false := by
      rw [beq_eq_false_iff_ne]
      exact fun h => hne h.symm
    have hsingle : List.find? (fun p => p.1 == k') [(k, v)] = none := by
      rw [List.find?_cons]
      simp only [hk, Bool.false_eq_true]
      rfl
    rw [hsingle]
    cases o.find? (fun p => p.1 == k') <;> simp

/-- Lengths recorded by the hex-pattern checks. -/
theorem isEthTxHash_length (s : String) (h : isEthTxHash s = true) :
    s.length = 66 := by
  unfold isEthTxHash at h
  simp only [Bool.and_eq_true, decide_eq_true_eq] at h
  exact h.1.1

theorem isEthAddress_length (s : String) (h : isEthAddress s = true) :
    s.length = 42 := by
  unfold isEthAddress at h
  simp only [Bool.and_eq_true, decide_eq_true_eq] at h
  exact h.1.1

/-- The dedup probe reads the property `hash`, which `newTransaction`
never writes. -/
theorem jsGet_newTransaction_hash (d : TxData) :
    jsGet (newTransaction d) "hash" = none := rfl

/-- Lemma: `updateExisting` never changes the key fields. -/
theorem updateExisting_key_fields (now : Nat) (d : TxData) (recId : Nat)
    (txs : List JsObj) (r : DBRecord) :
    (updateExisting now d recId txs r).fingerprint_id = r.fingerprint_id ∧
    (updateExisting now d recId txs r).fingerprint_hash = r.fingerprint_hash := by
  unfold updateExisting
  by_cases hid : (r.id == recId) = true
  · rw [if_pos hid]; exact ⟨rfl, rfl⟩
  · rw [if_neg hid]; exact ⟨rfl, rfl⟩

/-! ## Characterizations of addTransactionToFingerprint -/

/-- Forward characterization of the `INSERT` branch. -/
theorem addTransaction_insert (s : DBState) (now : Nat) (d : TxData)
    (hfind : findByIdAndHash s d.fingerprintId d.fingerprintHash = none)
    (hany : (s.records.any fun r => r.fingerprint_id == d.fingerprintId) = false) :
    addTransactionToFingerprint s now d = .ok (s.nextId, insertedState s now d) := by
  unfold addTransactionToFingerprint
  simp only [hfind, hany]
  rfl

/-- Forward characterization of the `UPDATE` branch. -/
theorem addTransaction_update (s : DBState) (now : Nat) (d : TxData)
    (rec : DBRecord) (txs : List JsObj)
    (hfind : findByIdAndHash s d.fingerprintId d.fingerprintHash = some rec)
    (hp : parseStoredTransactions rec.transactions = .ok txs)
    (hdup : (txs.any fun tx => jsGet tx "hash" == some d.transactionHash) = false) :
    addTransactionToFingerprint s now d = .ok (rec.id, updatedState s now d rec.id txs) := by
  unfold addTransactionToFingerprint
  simp only [hfind, hp, hdup]
  rfl

/-- Inversion: a successful call is exactly one of the two branches. -/
theorem addTransaction_ok_inversion
    (s : DBState) (now : Nat) (d : TxData) (i : Nat) (s2 : DBState)
    (hok : addTransactionToFingerprint s now d = .ok (i, s2)) :
    (∃ rec txs,
      findByIdAndHash s d.fingerprintId d.fingerprintHash = some rec ∧
      parseStoredTransactions rec.transactions = .ok txs ∧
      (txs.any fun tx => jsGet tx "hash" == some d.transactionHash) = false ∧
      i = rec.id ∧ s2 = updatedState s now d rec.id txs) ∨
    (findByIdAndHash s d.fingerprintId d.fingerprintHash = none ∧
      (s.records.any fun r => r.fingerprint_id == d.fingerprintId) = false ∧
      i = s.nextId ∧ s2 = insertedState s now d) := by
  unfold addTransactionToFingerprint at hok
  cases hfind : findByIdAndHash s d.fingerprintId d.fingerprintHash with
  | some rec =>
    simp only [hfind] at hok
    cases hp : parseStoredTransactions rec.transactions with
    | error e =>
      simp only [hp] at hok
      exact absurd hok (by simp)
    | ok txs =>
      simp only [hp] at hok
      split at hok
      next hdup => exact absurd hok (by simp)
      next hdup =>
        left
        simp only [Except.ok.injEq, Prod.mk.injEq] at hok
        exact ⟨rec, txs, rfl, hp, by simpa using hdup, hok.1.symm, hok.2.symm⟩
  | none =>
    simp only [hfind] at hok
    split at hok
    next hany => exact absurd hok (by simp)
    next hany =>
      right
      simp only [Except.ok.injEq, Prod.mk.injEq] at hok
      exact ⟨rfl, by simpa using hany, hok.1.symm, hok.2.symm⟩

/-! ## Masking and pagination lemmas -/

/-- The two masked properties of `maskTx`, when both source properties
are present and non-empty. -/
theorem maskTx_values (tx : JsObj) (h w : String)
    (hh : jsGet tx "txHash" = some h) (hhne : h ≠ "")
    (hw : jsGet tx "walletAddress" = some w) (hwne : w ≠ "") :
    jsGetN (maskTx tx) "txHash"
      = some (some (jsSliceTo h 10 ++ "..." ++ jsSliceFromEnd h 8)) ∧
    jsGetN (maskTx tx) "walletAddress"
      = some (some (jsSliceTo w 6 ++ "..." ++ jsSliceFromEnd w 4)) := by
  unfold maskTx
  simp only [hh, hw, if_pos hhne, if_pos hwne]
  constructor
  · rw [jsGetN_jsSetKey_other _ _ _ _ (by decide), jsGetN_jsSetKey_self]
  · rw [jsGetN_jsSetKey_self]

/-- Lemma: `Math.ceil(total / limit)` equals ceiling division
`(total + limit - 1) / limit` for positive `limit`. -/
theorem jsMathCeilDiv_eq (total limit : Nat) (h : 0 < limit) :
    jsMathCeilDiv total limit = (total + limit - 1) / limit := by
  unfold jsMathCeilDiv
  have hb : (0:ℚ) < (limit:ℚ) := by exact_mod_cast h
  have hk := Nat.div_add_mod (total + limit - 1) limit
  have hr : (total + limit - 1) % limit < limit := Nat.mod_lt _ h
  set k := (total + limit - 1) / limit with hkdef
  have h1 : total ≤ limit * k := by omega
  have h2 : limit * k < total + limit := by omega
  have h1q : (total:ℚ) ≤ (limit:ℚ) * (k:ℚ) := by exact_mod_cast h1
  have h2q : (limit:ℚ) * (k:ℚ) < (total:ℚ) + (limit:ℚ) := by exact_mod_cast h2
  have hd : (total:ℚ) / (limit:ℚ) ≤ (k:ℚ) := by
    rw [div_le_iff₀ hb]; nlinarith
  have hd2 : (k:ℚ) - 1 < (total:ℚ) / (limit:ℚ) := by
    rw [lt_div_iff₀ hb]; nlinarith
  have hc : ⌈(total:ℚ) / (limit:ℚ)⌉ = (k : ℤ) := by
    rw [Int.ceil_eq_iff]
    exact ⟨by push_cast; exact hd2, by push_cast; exact hd⟩
  rw [hc]
  simp

/-! ## C1 -/

/-- C1: calling `addTransactionToFingerprint` twice with the same
`txHash` for the same `(fingerprintId, fingerprintHash)` must leave
exactly one stored entry with that hash and fail the second call with
the DuplicateTransaction error.  The code violates this: the dedup
check reads `tx.hash`, but entries are stored under the key `txHash`,
so the check never fires — the second identical call succeeds and the
record ends with two entries carrying the same `txHash`. -/
theorem addTransaction_second_identical_call_succeeds :
    addTransactionToFingerprint exS0 100 exTx = .ok (1, exS1) ∧
    addTransactionToFingerprint exS1 200 exTx = .ok (1, exS2) ∧
    addTransactionToFingerprint exS1 200 exTx ≠
      .error "Failed to add transaction: Transaction already exists for this fingerprint" ∧
    entriesWithTxHash exS2 exTx.fingerprintId exTx.fingerprintHash
      exTx.transactionHash = some 2 := by
  refine ⟨rfl, rfl, by decide, by decide⟩

/-! ## C2 -/

/-- C2 counterexample: on a record whose stored transactions blob is
not valid JSON, `addTransactionToFingerprint` does not proceed as if
the list were empty — it throws the parse error (`catch (e) { throw
Error('There was an error parsing the existing record') }`). -/
theorem addTransaction_corrupt_blob_errors :
    addTransactionToFingerprint exCorruptState 300 exTxC =
      .error "Failed to add transaction: There was an error parsing the existing record" := rfl

/-- C2 amended: all read paths shape a row through
`transformFingerprintLog`, which yields `transactions = []` for an
unparsable (or NULL) blob without failing; but `recordTransaction`
(`addTransactionToFingerprint`) on such a record fails with the parse
error instead of proceeding as if the stored list were empty. -/
theorem corrupt_blob_reads_empty_but_append_fails :
    (∀ row : DBRecord,
      (row.transactions = .corrupt ∨ row.transactions = .null) →
      (transformFingerprintLog row).transactions = []) ∧
    (∀ (s : DBState) (h : String) (r : DBRecord),
      getFingerprintByHash s h = some r → r.transactions = .corrupt →
      getByHashRouteData s h = some (transformFingerprintLog r) ∧
      (transformFingerprintLog r).transactions = []) ∧
    (∀ (s : DBState) (fid : String) (r : DBRecord),
      getFingerprintById s fid = some r → r.transactions = .corrupt →
      getByIdRouteData s fid = some (transformFingerprintLog r) ∧
      (transformFingerprintLog r).transactions = []) ∧
    (∀ (s : DBState) (now : Nat) (d : TxData) (r : DBRecord),
      findByIdAndHash s d.fingerprintId d.fingerprintHash = some r →
      r.transactions = .corrupt →
      addTransactionToFingerprint s now d =
        .error "Failed to add transaction: There was an error parsing the existing record") := by
  refine ⟨?_, ?_, ?_, ?_⟩
  · intro row h
    unfold transformFingerprintLog
    rcases h with h | h <;> rw [h]
  · intro s h r hfind hcor
    refine ⟨?_, ?_⟩
    · unfold getByHashRouteData
      rw [hfind, Option.map_some']
    · unfold transformFingerprintLog
      rw [hcor]
  · intro s fid r hfind hcor
    refine ⟨?_, ?_⟩
    · unfold getByIdRouteData
      rw [hfind, Option.map_some']
    · unfold transformFingerprintLog
      rw [hcor]
  · intro s now d r hfind hcor
    unfold addTransactionToFingerprint
    rw [hfind]
    simp [parseStoredTransactions, hcor]

/-- Witness for the C2 amended theorem at the concrete corrupt record. -/
theorem corrupt_blob_reads_empty_but_append_fails_witness :
    (transformFingerprintLog exCorruptRec).transactions = [] ∧
    addTransactionToFingerprint exCorruptState 300 exTxC =
      .error "Failed to add transaction: There was an error parsing the existing record" :=
  ⟨corrupt_blob_reads_empty_but_append_fails.1 exCorruptRec (Or.inl rfl),
   corrupt_blob_reads_empty_but_append_fails.2.2.2 exCorruptState 300 exTxC
     exCorruptRec rfl rfl⟩

/-! ## C3 -/

/-- C3: a record-transaction request omitting `timestamp` should be
accepted, with the server assigning the current ISO time (the handler
line `requestData.timestamp || formatTimestamp()`).  The code violates
this: `validateCreateTransaction` answers 400 for a missing timestamp
(the final `else` branch of the `typeof` chain), so the handler's
server-assignment line is unreachable for omitted timestamps. -/
theorem validateCreateTransaction_rejects_omitted_timestamp :
    validateCreateTransaction (fun _ => some 0) 1735689600000 exBodyMissingTs =
      some "timestamp must be a string (ISO date) or number (Unix timestamp)" ∧
    resolveTimestamp .missing "2025-01-01T00:00:00.000Z" =
      .str "2025-01-01T00:00:00.000Z" := ⟨rfl, rfl⟩

/-! ## C4 -/

/-- C4: the unprivileged list-entry shaping truncates `fingerprintId`
to a strict prefix followed by the `...` marker, masks the
wallet-identifying field from `fingerprintHash`, and rewrites every
transaction's `txHash` and `walletAddress` to a prefix+`...`+suffix
form that differs from the original value (the preconditions are the
data-model shapes: `fingerprintId` at least 10 characters, `txHash`
`0x`+64 hex, `walletAddress` `0x`+40 hex). -/
theorem shapeListEntry_unprivileged_masks
    (t : FingerprintLogResponse)
    (hfid : 10 ≤ t.fingerprintId.length)
    (htx : ∀ tx ∈ t.transactions, ∃ h w,
      jsGet tx "txHash" = some h ∧ isEthTxHash h = true ∧
      jsGet tx "walletAddress" = some w ∧ isEthAddress w = true) :
    shapeListEntry false t =
      .redacted t.id (jsSliceTo t.fingerprintId 8 ++ "...") t.fingerprintHash
        (jsSliceTo t.fingerprintHash 6 ++ "..." ++ jsSliceFromEnd t.fingerprintHash 4)
        (t.transactions.map maskTx) t.createdAt t.updatedAt ∧
    (∃ rest : String, rest ≠ "" ∧
      t.fingerprintId = jsSliceTo t.fingerprintId 8 ++ rest) ∧
    (∀ tx ∈ t.transactions, ∃ h w,
      jsGet tx "txHash" = some h ∧ jsGet tx "walletAddress" = some w ∧
      jsGetN (maskTx tx) "txHash"
        = some (some (jsSliceTo h 10 ++ "..." ++ jsSliceFromEnd h 8)) ∧
      jsSliceTo h 10 ++ "..." ++ jsSliceFromEnd h 8 ≠ h ∧
      jsGetN (maskTx tx) "walletAddress"
        = some (some (jsSliceTo w 6 ++ "..." ++ jsSliceFromEnd w 4)) ∧
      jsSliceTo w 6 ++ "..." ++ jsSliceFromEnd w 4 ≠ w) := by
  have hdots : ("..." : String).length = 3 := rfl
  refine ⟨rfl, ?_, ?_⟩
  · refine ⟨⟨t.fingerprintId.data.drop 8⟩, ?_, ?_⟩
    · intro hempty
      have hd := congrArg String.data hempty
      have hl := congrArg List.length hd
      rw [List.length_drop] at hl
      have hdl : t.fingerprintId.length = t.fingerprintId.data.length := rfl
      rw [hdl] at hfid
      simp at hl
      omega
    · show t.fingerprintId =
        ⟨t.fingerprintId.data.take 8 ++ t.fingerprintId.data.drop 8⟩
      rw [List.take_append_drop]
  · intro tx htxm
    obtain ⟨h, w, hh, hhx, hw, hwx⟩ := htx tx htxm
    have hlh : h.length = 66 := isEthTxHash_length h hhx
    have hlw : w.length = 42 := isEthAddress_length w hwx
    have hhne : h ≠ "" := by
      intro he; rw [he] at hlh; exact absurd hlh (by decide)
    have hwne : w ≠ "" := by
      intro he; rw [he] at hlw; exact absurd hlw (by decide)
    obtain ⟨hm1, hm2⟩ := maskTx_values tx h w hh hhne hw hwne
    refine ⟨h, w, hh, hw, hm1, ?_, hm2, ?_⟩
    · intro heq
      have hL := congrArg String.length heq
      rw [length_string_append, length_string_append, length_jsSliceTo,
        length_jsSliceFromEnd, hdots, hlh] at hL
      omega
    · intro heq
      have hL := congrArg String.length heq
      rw [length_string_append, length_string_append, length_jsSliceTo,
        length_jsSliceFromEnd, hdots, hlw] at hL
      omega

/-- Witness for C4 at the concrete record `exResp`. -/
theorem shapeListEntry_unprivileged_masks_witness :
    shapeListEntry false exResp =
      .redacted exResp.id (jsSliceTo exResp.fingerprintId 8 ++ "...")
        exResp.fingerprintHash
        (jsSliceTo exResp.fingerprintHash 6 ++ "..." ++
          jsSliceFromEnd exResp.fingerprintHash 4)
        (exResp.transactions.map maskTx) exResp.createdAt exResp.updatedAt ∧
    (∃ rest : String, rest ≠ "" ∧
      exResp.fingerprintId = jsSliceTo exResp.fingerprintId 8 ++ rest) ∧
    (∀ tx ∈ exResp.transactions, ∃ h w,
      jsGet tx "txHash" = some h ∧ jsGet tx "walletAddress" = some w ∧
      jsGetN (maskTx tx) "txHash"
        = some (some (jsSliceTo h 10 ++ "..." ++ jsSliceFromEnd h 8)) ∧
      jsSliceTo h 10 ++ "..." ++ jsSliceFromEnd h 8 ≠ h ∧
      jsGetN (maskTx tx) "walletAddress"
        = some (some (jsSliceTo w 6 ++ "..." ++ jsSliceFromEnd w 4)) ∧
      jsSliceTo w 6 ++ "..." ++ jsSliceFromEnd w 4 ≠ w) :=
  shapeListEntry_unprivileged_masks exResp (by decide)
    (by
      intro tx htxm
      simp only [exResp, List.mem_singleton] at htxm
      subst htxm
      exact ⟨exTx.transactionHash, exTx.walletAddress, rfl, by decide, rfl,
        by decide⟩)

/-! ## C5 -/

/-- C5: among N = 2 calls carrying the same new `txHash` (here run in
the serialized schedule, which is one admissible concurrent schedule),
exactly one should succeed and the count should rise by exactly 1.
The code violates this: both calls succeed and the stored transaction
count rises from 1 to 3. -/
theorem addTransaction_same_new_txHash_twice_both_succeed :
    storedTxCount exS5a exTx.fingerprintId exTx.fingerprintHash = some 1 ∧
    addTransactionToFingerprint exS5a 210 exTx = .ok (1, exS5b) ∧
    addTransactionToFingerprint exS5b 220 exTx = .ok (1, exS5c) ∧
    addTransactionToFingerprint exS5b 220 exTx ≠
      .error "Failed to add transaction: Transaction already exists for this fingerprint" ∧
    storedTxCount exS5c exTx.fingerprintId exTx.fingerprintHash = some 3 := by
  refine ⟨by decide, rfl, rfl, by decide, by decide⟩

/-! ## C6 -/

/-- C6: the first call for a never-seen fingerprint identity (the data
model treats `fingerprintHash` as 1:1 with `fingerprintId`, so a
never-seen pair is a never-seen identity) creates a record with one
transaction and returns the newly assigned id; a second call for the
same pair with a different `txHash` returns the same id and leaves the
record with exactly two transactions. -/
theorem first_call_creates_second_call_appends
    (s : DBState) (now1 now2 : Nat) (d d2 : TxData)
    (hfresh : ∀ r ∈ s.records, r.fingerprint_id ≠ d.fingerprintId)
    (hid2 : d2.fingerprintId = d.fingerprintId)
    (hhash2 : d2.fingerprintHash = d.fingerprintHash)
    (_hdiff : d2.transactionHash ≠ d.transactionHash) :
    ∃ s1 s2 : DBState,
      addTransactionToFingerprint s now1 d = .ok (s.nextId, s1) ∧
      storedTxCount s1 d.fingerprintId d.fingerprintHash = some 1 ∧
      addTransactionToFingerprint s1 now2 d2 = .ok (s.nextId, s2) ∧
      storedTxCount s2 d.fingerprintId d.fingerprintHash = some 2 := by
  have hfind1 : findByIdAndHash s d.fingerprintId d.fingerprintHash = none := by
    apply List.find?_eq_none.mpr
    intro r hr
    simp only [Bool.and_eq_true, beq_iff_eq]
    rintro ⟨h1, -⟩
    exact hfresh r hr h1
  have hany1 : (s.records.any fun r => r.fingerprint_id == d.fingerprintId) = false := by
    apply List.any_eq_false.mpr
    intro r hr
    simp only [beq_iff_eq]
    exact hfresh r hr
  have h1 := addTransaction_insert s now1 d hfind1 hany1
  have hfind1u : s.records.find?
      (fun r => r.fingerprint_id == d.fingerprintId &&
        r.fingerprint_hash == d.fingerprintHash) = none := hfind1
  have hfind1' : findByIdAndHash (insertedState s now1 d)
      d.fingerprintId d.fingerprintHash = some (insertedRecord s now1 d) := by
    unfold findByIdAndHash insertedState
    rw [List.find?_append, hfind1u]
    simp [insertedRecord]
  refine ⟨insertedState s now1 d,
    updatedState (insertedState s now1 d) now2 d2
      (insertedRecord s now1 d).id [newTransaction d],
    h1, ?_, ?_, ?_⟩
  · unfold storedTxCount
    rw [hfind1']
    rfl
  · have hfind2 : findByIdAndHash (insertedState s now1 d)
        d2.fingerprintId d2.fingerprintHash = some (insertedRecord s now1 d) := by
      rw [hid2, hhash2]; exact hfind1'
    exact addTransaction_update (insertedState s now1 d) now2 d2
      (insertedRecord s now1 d) [newTransaction d] hfind2 rfl rfl
  · have hfind3 : findByIdAndHash
        (updatedState (insertedState s now1 d) now2 d2
          (insertedRecord s now1 d).id [newTransaction d])
        d.fingerprintId d.fingerprintHash
        = some (updateExisting now2 d2 (insertedRecord s now1 d).id
            [newTransaction d] (insertedRecord s now1 d)) := by
      unfold findByIdAndHash updatedState insertedState
      rw [List.map_append, List.find?_append]
      have hnone : ((s.records.map (updateExisting now2 d2
          (insertedRecord s now1 d).id [newTransaction d])).find?
          (fun r => r.fingerprint_id == d.fingerprintId &&
            r.fingerprint_hash == d.fingerprintHash)) = none := by
        apply List.find?_eq_none.mpr
        intro x hx
        rw [List.mem_map] at hx
        obtain ⟨r, hr, hfr⟩ := hx
        subst hfr
        have hpres := (updateExisting_key_fields now2 d2
          (insertedRecord s now1 d).id [newTransaction d] r).1
        simp only [hpres, Bool.and_eq_true, beq_iff_eq]
        rintro ⟨hh1, -⟩
        exact hfresh r hr hh1
      rw [hnone]
      simp [updateExisting, insertedRecord]
    unfold storedTxCount
    rw [hfind3]
    simp [updateExisting, insertedRecord]

/-- Witness for C6 at a concrete fresh fingerprint and two distinct
transaction hashes. -/
theorem first_call_creates_second_call_appends_witness :
    ∃ s1 s2 : DBState,
      addTransactionToFingerprint exS0 100 exTx = .ok (exS0.nextId, s1) ∧
      storedTxCount s1 exTx.fingerprintId exTx.fingerprintHash = some 1 ∧
      addTransactionToFingerprint s1 200 exTxOld = .ok (exS0.nextId, s2) ∧
      storedTxCount s2 exTx.fingerprintId exTx.fingerprintHash = some 2 :=
  first_call_creates_second_call_appends exS0 100 200 exTx exTxOld
    (by intro r hr; simp [exS0] at hr) rfl rfl (by decide)

/-! ## C7 -/

/-- C7: for `page ≥ 1`, `pageSize ∈ [1,100]` and any `total`,
`calculatePagination` computes `totalPages = ceil(total / pageSize)`
(as the ceiling division `(total + pageSize - 1) / pageSize`) and
`hasMore = (page < totalPages)`; for `total = 0` it yields
`totalPages = 0` and `hasMore = false`. -/
theorem calculatePagination_correct (page limit total : Nat)
    (_hpage : 1 ≤ page) (hlim1 : 1 ≤ limit) (hlim2 : limit ≤ 100) :
    (calculatePagination page limit total).totalPages
      = (total + limit - 1) / limit ∧
    (calculatePagination page limit total).hasMore
      = decide (page < (total + limit - 1) / limit) ∧
    (total = 0 →
      (calculatePagination page limit total).totalPages = 0 ∧
      (calculatePagination page limit total).hasMore = false) := by
  have hceil := jsMathCeilDiv_eq total limit hlim1
  refine ⟨?_, ?_, ?_⟩
  · simpa [calculatePagination] using hceil
  · simp [calculatePagination, hceil]
  · intro h0
    subst h0
    have hz : (0 + limit - 1) / limit = 0 := by
      apply Nat.div_eq_of_lt
      omega
    constructor
    · show jsMathCeilDiv 0 limit = 0
      rw [hceil, hz]
    · show decide (page < jsMathCeilDiv 0 limit) = false
      rw [hceil, hz]
      simp

/-- Witness for C7 at the spec's own example `total = 23`,
`pageSize = 10`, `page = 1`. -/
theorem calculatePagination_correct_witness :
    (calculatePagination 1 10 23).totalPages = (23 + 10 - 1) / 10 ∧
    (calculatePagination 1 10 23).hasMore
      = decide (1 < (23 + 10 - 1) / 10) ∧
    (23 = 0 →
      (calculatePagination 1 10 23).totalPages = 0 ∧
      (calculatePagination 1 10 23).hasMore = false) :=
  calculatePagination_correct 1 10 23 (by decide) (by decide) (by decide)

/-! ## C8 -/

/-- C8 counterexample: requesting the allow-listed field
`fingerprint_hash` does not apply it — the route-level allow-list lists
`wallet_address` instead of `fingerprint_hash`, so `sanitizeSortField`
falls back to `created_at` before the database layer ever sees the
request. -/
theorem appliedSortField_fingerprint_hash_falls_back :
    appliedSortField "fingerprint_hash" = "created_at" ∧
    "created_at" ≠ "fingerprint_hash" := by decide

/-- C8 amended (see `appliedSortField`/`appliedSortOrder`). -/
theorem appliedSort_effective_allowlist :
    (∀ s : String,
      appliedSortField s =
        if s = "created_at" ∨ s = "updated_at" ∨ s = "fingerprint_id"
        then s else "created_at") ∧
    (∀ s : String,
      appliedSortOrder s =
        if jsToUpperCase s = "ASC" ∨ jsToUpperCase s = "DESC"
        then jsToUpperCase s else "DESC") := by
  constructor
  · intro s
    rcases eq_or_ne s "created_at" with h | h1
    · subst h; decide
    rcases eq_or_ne s "updated_at" with h | h2
    · subst h; decide
    rcases eq_or_ne s "fingerprint_id" with h | h3
    · subst h; decide
    rcases eq_or_ne s "wallet_address" with h | h4
    · subst h; decide
    rw [if_neg (by tauto)]
    have hc : routeValidSortFields.contains s = false := by
      simp [routeValidSortFields]
      tauto
    simp only [appliedSortField, sanitizeSortField, hc]
    rw [if_neg (by decide)]
    decide
  · intro s
    by_cases h1 : jsToUpperCase s = "ASC"
    · rw [if_pos (Or.inl h1)]
      simp only [appliedSortOrder, sanitizeSortOrder, h1]
      decide
    by_cases h2 : jsToUpperCase s = "DESC"
    · rw [if_pos (Or.inr h2)]
      simp only [appliedSortOrder, sanitizeSortOrder, h2]
      decide
    rw [if_neg (by tauto)]
    have hb : (jsToUpperCase s == "ASC" || jsToUpperCase s == "DESC") = false := by
      simp [h1, h2]
    simp only [appliedSortOrder, sanitizeSortOrder, hb]
    rw [if_neg (by decide)]
    decide

/-! ## C9 -/

/-- C9: a successful `addTransactionToFingerprint` preserves
`createdAt ≤ updatedAt` on every row; every row after the call either
existed before — `created_at` unchanged and `updated_at` unchanged or
refreshed to `now` — or is newly created with
`created_at = updated_at = now`.  The read operations
(`getFingerprintByHash`, `getFingerprintById`, `getAllFingerprints`)
are pure and return no modified state, so no other operation touches
either field. -/
theorem addTransaction_preserves_createdAt_le_updatedAt
    (s : DBState) (now : Nat) (d : TxData) (i : Nat) (s2 : DBState)
    (hInv : ledgerInvariant s) (hClock : clockBound s now)
    (hok : addTransactionToFingerprint s now d = .ok (i, s2)) :
    ledgerInvariant s2 ∧
    ∀ r2 ∈ s2.records,
      (∃ r ∈ s.records, r.id = r2.id ∧ r2.created_at = r.created_at ∧
        (r2.updated_at = r.updated_at ∨ r2.updated_at = now)) ∨
      (r2.created_at = now ∧ r2.updated_at = now) := by
  rcases addTransaction_ok_inversion s now d i s2 hok with
    ⟨rec, txs, hfind, hp, hdup, hi, hs2⟩ | ⟨hfind, hany, hi, hs2⟩
  · subst hs2
    constructor
    · intro r2 hr2
      simp only [updatedState, List.mem_map] at hr2
      obtain ⟨r, hr, hmap⟩ := hr2
      subst hmap
      unfold updateExisting
      by_cases hid : (r.id == rec.id) = true
      · rw [if_pos hid]
        exact (hClock r hr).1
      · rw [if_neg hid]
        exact hInv r hr
    · intro r2 hr2
      simp only [updatedState, List.mem_map] at hr2
      obtain ⟨r, hr, hmap⟩ := hr2
      subst hmap
      unfold updateExisting
      by_cases hid : (r.id == rec.id) = true
      · rw [if_pos hid]
        exact Or.inl ⟨r, hr, rfl, rfl, Or.inr rfl⟩
      · rw [if_neg hid]
        exact Or.inl ⟨r, hr, rfl, rfl, Or.inl rfl⟩
  · subst hs2
    constructor
    · intro r2 hr2
      simp only [insertedState, List.mem_append, List.mem_singleton] at hr2
      rcases hr2 with hr2 | hr2
      · exact hInv r2 hr2
      · subst hr2
        simp [insertedRecord]
    · intro r2 hr2
      simp only [insertedState, List.mem_append, List.mem_singleton] at hr2
      rcases hr2 with hr2 | hr2
      · exact Or.inl ⟨r2, hr2, rfl, rfl, Or.inl rfl⟩
      · subst hr2
        exact Or.inr ⟨rfl, rfl⟩

/-- Witness for C9: the hypotheses hold at the empty database and the
concrete payload, and the call succeeds. -/
theorem addTransaction_preserves_createdAt_le_updatedAt_witness :
    ledgerInvariant exS1 ∧
    ∀ r2 ∈ exS1.records,
      (∃ r ∈ exS0.records, r.id = r2.id ∧ r2.created_at = r.created_at ∧
        (r2.updated_at = r.updated_at ∨ r2.updated_at = 100)) ∨
      (r2.created_at = 100 ∧ r2.updated_at = 100) :=
  addTransaction_preserves_createdAt_le_updatedAt exS0 100 exTx 1 exS1
    (by intro r hr; simp [exS0] at hr)
    (by intro r hr; simp [exS0] at hr)
    rfl

/-! ## C10 -/

/-- C10: `validateApiKey` either rejects with 401/500 or proceeds with
`isAuthenticated = true`; consequently every served `GET /fingerprints`
response carries `authenticated: true` and its data is the unredacted
`transformFingerprintLog` output — the redaction branch is unreachable,
and an unprivileged caller gets a 401 rather than a redacted list. -/
theorem validateApiKey_gates_list_endpoint :
    (∀ apiKey expectedApiKey : Option String,
      validateApiKey apiKey expectedApiKey = .reject 401 ∨
      validateApiKey apiKey expectedApiKey = .reject 500 ∨
      validateApiKey apiKey expectedApiKey = .proceed true) ∧
    (∀ (apiKey expectedApiKey : Option String) (page? limit? : Option Nat)
        (sortBy? sortOrder? : Option String) (s : DBState),
      match getFingerprintsRoute apiKey expectedApiKey page? limit?
          sortBy? sortOrder? s with
      | .rejected status => status = 400 ∨ status = 401 ∨ status = 500
      | .served resp =>
          resp.authenticated = true ∧
          resp.data = ((getAllFingerprints s (limit?.getD 50)
              ((page?.getD 1 - 1) * limit?.getD 50)
              (sanitizeSortField (sortBy?.getD "created_at") routeValidSortFields)
              (sanitizeSortOrder (sortOrder?.getD "DESC"))).1).map
            (fun log => .full (transformFingerprintLog log))) := by
  have hA : ∀ apiKey expectedApiKey : Option String,
      validateApiKey apiKey expectedApiKey = .reject 401 ∨
      validateApiKey apiKey expectedApiKey = .reject 500 ∨
      validateApiKey apiKey expectedApiKey = .proceed true := by
    intro k e
    unfold validateApiKey
    by_cases h1 : jsFalsyOptStr e
    · simp [h1]
    by_cases h2 : jsFalsyOptStr k
    · simp [h1, h2]
    by_cases h3 : k ≠ e
    · simp [h1, h2, h3]
    · simp [h1, h2, h3]
  refine ⟨hA, ?_⟩
  intro k e page? limit? sortBy? sortOrder? s
  unfold getFingerprintsRoute
  rcases hA k e with h | h | h <;> rw [h]
  · simp
  · simp
  · cases hq : validateGetFingerprintsQuery page? limit? with
    | some msg => simp
    | none =>
      simp [getFingerprintsHandler, getAllFingerprints, shapeListEntry]
